import Mathlib

/-!
Shallow embedding of the validation and data-integrity engine of the
sports-management repository (src/utils/validation.py and src/utils/auth.py),
together with theorems settling the frozen claims about it.

Python strings are modelled as `List Char`.  Character classification
(`\d`, `[A-Za-z]`, `str.isupper`, ...) is modelled over the ASCII range and
the Latin-1 supplement where the source regexes mention it; the Python
whitespace set (used by `str.strip` and `\s`) is modelled by `isPySpace`
below, covering the Unicode whitespace code points.  Machine integers are
modelled as `Int` (Python ints are unbounded, so no wraparound is needed).
The one fallible operation — `validate_game_data`, which evaluates the
undefined name `exclude_id` on one path and therefore raises `NameError` —
is modelled with `Except`.
-/

/-- Convert a Lean string literal to the `List Char` representation used for
Python strings throughout this development. -/
def str (s : String) : List Char := s.toList

/-- The apostrophe character (code point 39). -/
def apos : Char := Char.ofNat 39

/-- The Python whitespace set, as used by `str.strip` and by `\s` in `re`
patterns over `str`: the ASCII whitespace controls, the C1 whitespace
controls, and the Unicode space separators. -/
def isPySpace (c : Char) : Bool :=
  let n := c.toNat
  (9 ≤ n && n ≤ 13) || (28 ≤ n && n ≤ 31) || n = 32 || n = 133 || n = 160 ||
  n = 0x1680 || (0x2000 ≤ n && n ≤ 0x200A) || n = 0x2028 || n = 0x2029 ||
  n = 0x202F || n = 0x205F || n = 0x3000

/-- `str.strip()`: remove leading and trailing Python whitespace. -/
def stripPy (l : List Char) : List Char :=
  ((l.dropWhile isPySpace).reverse.dropWhile isPySpace).reverse

/-- ASCII decimal digit (`\d` for the inputs this code meets; the model
restricts the Python Unicode digit classes to the ASCII range). -/
def isDig (c : Char) : Bool := 48 ≤ c.toNat && c.toNat ≤ 57

/-- ASCII uppercase letter (models `str.isupper` per character, restricted to
ASCII). -/
def isUpperA (c : Char) : Bool := 65 ≤ c.toNat && c.toNat ≤ 90

/-- ASCII lowercase letter (models `str.islower` per character, restricted to
ASCII). -/
def isLowerA (c : Char) : Bool := 97 ≤ c.toNat && c.toNat ≤ 122

/-- `[A-Za-z]`. -/
def isAlphaA (c : Char) : Bool := isUpperA c || isLowerA c

/-- ASCII lowercasing of one character (models `str.lower` on the inputs this
code meets). -/
def lowerChar (c : Char) : Char :=
  if isUpperA c then Char.ofNat (c.toNat + 32) else c

/-- `str.lower()`. -/
def lowerPy (l : List Char) : List Char := l.map lowerChar

/-- Numeric value of a digit string (most significant digit first). -/
def digitsToNat (l : List Char) : Nat :=
  l.foldl (fun a c => 10 * a + (c.toNat - 48)) 0

/-- `str.split` with the dash as separator: split on every occurrence of the dash. -/
def splitOnDash (l : List Char) : List (List Char) :=
  l.foldr
    (fun c acc =>
      if c = '-' then [] :: acc
      else
        match acc with
        | [] => [[c]]
        | h :: t => (c :: h) :: t)
    [[]]

/-- Tail of the digit grammar accepted by Python `int`: digits with single
underscores allowed between digits. -/
def intTail : List Char → Bool
  | [] => true
  | c :: r =>
    if c = '_' then
      match r with
      | [] => false
      | c2 :: r2 => isDig c2 && intTail r2
    else isDig c && intTail r

/-- Whole-body digit grammar of Python `int`: a nonempty digit sequence with
optional single underscores between digits. -/
def intBody (l : List Char) : Bool :=
  match l with
  | [] => false
  | c :: r => isDig c && intTail r

/-- Numeric value of an `int` body, skipping underscores. -/
def intBodyVal (l : List Char) : Nat :=
  l.foldl (fun a c => if c = '_' then a else 10 * a + (c.toNat - 48)) 0

/-- Python `int(s)` on a string: surrounding whitespace is stripped, then an
optional sign followed by digits (with underscores between digits).  Returns
`none` where Python raises `ValueError`.  (Unicode digits outside ASCII are
outside the scope of the model.) -/
def pyInt (l : List Char) : Option Int :=
  match stripPy l with
  | [] => none
  | c :: r =>
    if c = '+' then (if intBody r then some (intBodyVal r) else none)
    else if c = '-' then (if intBody r then some (-(intBodyVal r : Int)) else none)
    else (if intBody (c :: r) then some (intBodyVal (c :: r)) else none)

/-- Prefix match of digits-dash-digits (what `re.match` tests on the plus
form of the pattern): a nonempty run of
digits, a dash, then at least one digit.  Because a shorter digit run is
always followed by another digit, regex backtracking collapses to
taking the maximal digit run. -/
def matchesIntDashInt (l : List Char) : Bool :=
  let d1 := l.takeWhile isDig
  let r := l.drop d1.length
  (!d1.isEmpty) &&
    match r with
    | [] => false
    | c :: r2 => if c = '-' then !(r2.takeWhile isDig).isEmpty else false

/-- Full match of the Soccer score pattern (one or two digits, a dash, one
or two digits, anchored both sides) on an already-stripped string.  A stripped string cannot end in a newline, so the
`$`-before-final-newline case of Python regexes cannot arise. -/
def matchesSoccerScore (l : List Char) : Bool :=
  let d1 := l.takeWhile isDig
  let r := l.drop d1.length
  (1 ≤ d1.length && d1.length ≤ 2) &&
    match r with
    | [] => false
    | c :: r2 =>
      if c = '-' then
        let d2 := r2.takeWhile isDig
        (1 ≤ d2.length && d2.length ≤ 2) && (r2.drop d2.length).isEmpty
      else false

/-- Full match of the Basketball score pattern (two or three digits, a dash,
two or three digits, anchored both sides) on an already-stripped string. -/
def matchesBasketballScore (l : List Char) : Bool :=
  let d1 := l.takeWhile isDig
  let r := l.drop d1.length
  (2 ≤ d1.length && d1.length ≤ 3) &&
    match r with
    | [] => false
    | c :: r2 =>
      if c = '-' then
        let d2 := r2.takeWhile isDig
        (2 ≤ d2.length && d2.length ≤ 3) && (r2.drop d2.length).isEmpty
      else false

/-- Character class of the Soccer team-name pattern: letters, whitespace,
dash, dot, apostrophe, ampersand, and the Latin-1 range 0xC0 to 0xFF. -/
def teamCharSoccer (c : Char) : Bool :=
  isAlphaA c || isPySpace c || c = '-' || c = '.' || c = apos || c = '&' ||
  (0xC0 ≤ c.toNat && c.toNat ≤ 0xFF)

/-- Character class of the Basketball team-name pattern: the Soccer class
plus digits. -/
def teamCharBasketball (c : Char) : Bool := teamCharSoccer c || isDig c

/-- Full match of the Soccer team-name pattern on an already-stripped
string: every character in the class, and length between 2 and 50.  (With a
single character class, the counted repetition plus anchors reduce to exactly
this.) -/
def matchesTeamSoccer (l : List Char) : Bool :=
  l.all teamCharSoccer && 2 ≤ l.length && l.length ≤ 50

/-- Full match of the Basketball team-name pattern (length 2 to 50) on an
already-stripped string. -/
def matchesTeamBasketball (l : List Char) : Bool :=
  l.all teamCharBasketball && 2 ≤ l.length && l.length ≤ 50

/-- Full match of the league-name pattern (the Basketball character class,
length 2 to 100) on an already-stripped string. -/
def matchesLeagueName (l : List Char) : Bool :=
  l.all teamCharBasketball && 2 ≤ l.length && l.length ≤ 100

/-- Does the string contain the two-character substring `--`? -/
def hasDoubleDash : List Char → Bool
  | '-' :: '-' :: _ => true
  | _ :: r => hasDoubleDash r
  | [] => false

/-- The denylist test of `validate_team_name`: a less-than, greater-than,
double quote, apostrophe or semicolon character, or a double dash substring. -/
def hasBadTeamChar (l : List Char) : Bool :=
  l.any (fun c => c = '<' || c = '>' || c = '"' || c = apos || c = ';') ||
  hasDoubleDash l

/-- `ValidationResult` of src/utils/validation.py: a dataclass whose
`severity` field defaults to the string `"error"`. -/
structure ValidationResult where
  is_valid : Bool
  message : List Char
  field : Option (List Char) := none
  severity : List Char := str "error"
deriving DecidableEq, Repr

/-- An already-persisted game as consumed by `validate_unique_game`: a dict
with `team1`, `team2`, `league`, `date` keys and an optional `id` key read
via `Dict.get`. -/
structure Game where
  id : Option Int
  team1 : List Char
  team2 : List Char
  league : List Char
  date : List Char
deriving DecidableEq, Repr

/-- A candidate record as passed to `validate_game_data` and
`validate_batch_games`: a dict whose required keys may be absent (`none`) or
empty. -/
structure GameData where
  sport : Option (List Char) := none
  league : Option (List Char) := none
  team1 : Option (List Char) := none
  team2 : Option (List Char) := none
  score : Option (List Char) := none
  date : Option (List Char) := none
deriving DecidableEq, Repr, Inhabited

/-- `SportsDataValidator.validate_team_name`. -/
def validate_team_name (team_name sport : List Char) : ValidationResult :=
  if team_name = [] ∨ stripPy team_name = [] then
    ⟨false, str "Team name cannot be empty", some (str "team_name"), str "error"⟩
  else
    let t := stripPy team_name
    if t.length < 2 then
      ⟨false, str "Team name must be at least 2 characters", some (str "team_name"), str "error"⟩
    else if t.length > 50 then
      ⟨false, str "Team name cannot exceed 50 characters", some (str "team_name"), str "error"⟩
    else if (sport = str "Soccer" ∧ matchesTeamSoccer t = false) ∨
            (sport = str "Basketball" ∧ matchesTeamBasketball t = false) then
      ⟨false, str "Team name contains invalid characters for " ++ sport,
        some (str "team_name"), str "error"⟩
    else if hasBadTeamChar t then
      ⟨false, str "Team name contains invalid characters", some (str "team_name"), str "error"⟩
    else
      ⟨true, str "Team name is valid", none, str "error"⟩

/-- `SportsDataValidator.validate_league_name`. -/
def validate_league_name (league_name : List Char) : ValidationResult :=
  if league_name = [] ∨ stripPy league_name = [] then
    ⟨false, str "League name cannot be empty", some (str "league"), str "error"⟩
  else
    let t := stripPy league_name
    if t.length < 2 then
      ⟨false, str "League name must be at least 2 characters", some (str "league"), str "error"⟩
    else if t.length > 100 then
      ⟨false, str "League name cannot exceed 100 characters", some (str "league"), str "error"⟩
    else if matchesLeagueName t = false then
      ⟨false, str "League name contains invalid characters", some (str "league"), str "error"⟩
    else
      ⟨true, str "League name is valid", none, str "error"⟩

/-- Is a two-digit month (per the strptime month regex alternatives 1[0-2]
and 0[1-9])? -/
def twoDigitMonthOk (a b : Char) : Bool :=
  (a = '0' && 49 ≤ b.toNat && b.toNat ≤ 57) ||
  (a = '1' && 48 ≤ b.toNat && b.toNat ≤ 50)

/-- Parse the month of a strptime `%m` directive.  The regex tries the
two-digit alternatives before the one-digit one; when two digits are
available the one-digit parse is always followed by a digit where the format
requires a dash, so no cross-directive backtracking can occur. -/
def parseMonth : List Char → Option (Nat × List Char)
  | [] => none
  | [a] => if 49 ≤ a.toNat && a.toNat ≤ 57 then some (a.toNat - 48, []) else none
  | a :: b :: r =>
    if isDig a && isDig b then
      if twoDigitMonthOk a b then some (10 * (a.toNat - 48) + (b.toNat - 48), r) else none
    else
      if 49 ≤ a.toNat && a.toNat ≤ 57 then some (a.toNat - 48, b :: r) else none

/-- Is a two-digit day (per the strptime day regex alternatives 3[01],
[12] digit and 0[1-9])? -/
def twoDigitDayOk (a b : Char) : Bool :=
  (a = '3' && (b = '0' || b = '1')) ||
  ((a = '1' || a = '2') && isDig b) ||
  (a = '0' && 49 ≤ b.toNat && b.toNat ≤ 57)

/-- Parse the day of a strptime `%d` directive; same backtracking argument as
for the month, with end-of-string in place of the dash. -/
def parseDay : List Char → Option (Nat × List Char)
  | [] => none
  | [a] => if 49 ≤ a.toNat && a.toNat ≤ 57 then some (a.toNat - 48, []) else none
  | a :: b :: r =>
    if isDig a && isDig b then
      if twoDigitDayOk a b then some (10 * (a.toNat - 48) + (b.toNat - 48), r) else none
    else
      if 49 ≤ a.toNat && a.toNat ≤ 57 then some (a.toNat - 48, b :: r) else none

/-- Gregorian leap year. -/
def isLeap (y : Nat) : Bool := y % 4 = 0 && (y % 100 ≠ 0 || y % 400 = 0)

/-- Length of a month, as enforced by the datetime constructor. -/
def daysInMonth (y m : Nat) : Nat :=
  if m = 2 then (if isLeap y then 29 else 28)
  else if m = 4 ∨ m = 6 ∨ m = 9 ∨ m = 11 then 30
  else 31

/-- Day number of a civil date relative to 1970-01-01 (the standard
days-from-civil computation; all intermediate quantities are nonnegative for
the years the parser can produce, so the division convention is
irrelevant). -/
def daysFromCivil (y m d : Int) : Int :=
  let y2 : Int := if m ≤ 2 then y - 1 else y
  let era : Int := (if 0 ≤ y2 then y2 else y2 - 399) / 400
  let yoe : Int := y2 - era * 400
  let doy : Int := (153 * (if 2 < m then m - 3 else m + 9) + 2) / 5 + d - 1
  let doe : Int := yoe * 365 + yoe / 4 - yoe / 100 + doy
  era * 146097 + doe - 719468

/-- `datetime.strptime(s, %Y-%m-%d)` followed by the datetime validity
checks, returning the timestamp in seconds (the parsed date at midnight)
relative to the epoch; `none` models the ValueError path.  The year directive
is exactly four digits; the whole string must be consumed. -/
def parseYMD (l : List Char) : Option Int :=
  match l with
  | y1 :: y2 :: y3 :: y4 :: '-' :: rest =>
    if isDig y1 && isDig y2 && isDig y3 && isDig y4 then
      let y := digitsToNat [y1, y2, y3, y4]
      match parseMonth rest with
      | some (m, '-' :: rest2) =>
        match parseDay rest2 with
        | some (d, []) =>
          if 1 ≤ y ∧ d ≤ daysInMonth y m then
            some (86400 * daysFromCivil y m d)
          else none
        | _ => none
      | _ => none
    else none
  | _ => none

/-- `SportsDataValidator.validate_date`.  `now` is the value of
`datetime.now()` at call time, in seconds relative to the same epoch as
`parseYMD`. -/
def validate_date (date_str : List Char) (now : Int) : ValidationResult :=
  if date_str = [] ∨ stripPy date_str = [] then
    ⟨false, str "Date cannot be empty", some (str "date"), str "error"⟩
  else
    match parseYMD (stripPy date_str) with
    | none => ⟨false, str "Invalid date format. Use YYYY-MM-DD", some (str "date"), str "error"⟩
    | some t =>
      if t < now - 3650 * 86400 then
        ⟨false, str "Date cannot be more than 10 years ago", some (str "date"), str "error"⟩
      else if t > now + 365 * 86400 then
        ⟨false, str "Date cannot be more than 1 year in the future", some (str "date"), str "error"⟩
      else if t > now then
        ⟨true, str "Future date detected", some (str "date"), str "warning"⟩
      else
        ⟨true, str "Date is valid", none, str "error"⟩

/-- `SportsDataValidator.validate_score`. -/
def validate_score (score_str sport : List Char) : ValidationResult :=
  if score_str = [] ∨ stripPy score_str = [] then
    ⟨false, str "Score cannot be empty", some (str "score"), str "error"⟩
  else
    let s := stripPy score_str
    if (sport = str "Soccer" ∧ matchesSoccerScore s = false) ∨
       (sport = str "Basketball" ∧ matchesBasketballScore s = false) then
      ⟨false, str "Invalid score format for " ++ sport ++ str ". Use format: X-Y",
        some (str "score"), str "error"⟩
    else
      match splitOnDash s with
      | [p1, p2] =>
        match pyInt (stripPy p1), pyInt (stripPy p2) with
        | some a, some b =>
          if a < 0 ∨ b < 0 then
            ⟨false, str "Scores cannot be negative", some (str "score"), str "error"⟩
          else if sport = str "Soccer" then
            if a > 15 ∨ b > 15 then
              ⟨false, str "Soccer scores rarely exceed 15 goals", some (str "score"), str "warning"⟩
            else if a > 10 ∨ b > 10 then
              ⟨true, str "High scoring game detected", some (str "score"), str "info"⟩
            else ⟨true, str "Score is valid", none, str "error"⟩
          else if sport = str "Basketball" then
            if a < 50 ∨ b < 50 then
              ⟨false, str "Basketball scores are typically above 50", some (str "score"), str "error"⟩
            else if a > 200 ∨ b > 200 then
              ⟨false, str "Basketball scores rarely exceed 200 points", some (str "score"), str "warning"⟩
            else ⟨true, str "Score is valid", none, str "error"⟩
          else ⟨true, str "Score is valid", none, str "error"⟩
        | _, _ =>
          ⟨false, str "Invalid score format. Use numbers only", some (str "score"), str "error"⟩
      | _ => ⟨false, str "Score must be in format X-Y", some (str "score"), str "error"⟩

/-- The static `LEAGUE_SPORT_MAPPING` table. -/
def leagueSportMapping (l : List Char) : Option (List Char) :=
  if l = str "Premier League" then some (str "Soccer")
  else if l = str "La Liga" then some (str "Soccer")
  else if l = str "Serie A" then some (str "Soccer")
  else if l = str "Bundesliga" then some (str "Soccer")
  else if l = str "Champions League" then some (str "Soccer")
  else if l = str "Europa League" then some (str "Soccer")
  else if l = str "NBA" then some (str "Basketball")
  else if l = str "EuroLeague" then some (str "Basketball")
  else if l = str "College Basketball" then some (str "Basketball")
  else if l = str "WNBA" then some (str "Basketball")
  else none

/-- `SportsDataValidator.validate_league_sport_compatibility`.  All mapped
sports are nonempty strings, so the truthiness guard on the lookup result
reduces to the `Option` match. -/
def validate_league_sport_compatibility (league sport : List Char) : ValidationResult :=
  match leagueSportMapping league with
  | some expected =>
    if expected ≠ sport then
      ⟨false, [apos] ++ league ++ [apos] ++ str " is typically a " ++ expected ++
        str " league, not " ++ sport, some (str "league"), str "warning"⟩
    else ⟨true, str "League-sport combination is valid", none, str "error"⟩
  | none => ⟨true, str "League-sport combination is valid", none, str "error"⟩

/-- The exclusion guard in `validate_unique_game`: the Python condition is
the truthiness of `exclude_id` conjoined with `game.get(id) == exclude_id`,
so an exclusion id of 0 (or None) excludes nothing. -/
def excludeMatch (ex : Option Int) (g : Game) : Bool :=
  match ex with
  | none => false
  | some e => if e = 0 then false else decide (g.id = some e)

/-- `SportsDataValidator.validate_unique_game`. -/
def validate_unique_game (t1 t2 l d : List Char) :
    List Game → Option Int → ValidationResult
  | [], _ => ⟨true, str "Game is unique", none, str "error"⟩
  | g :: rest, ex =>
    if excludeMatch ex g then validate_unique_game t1 t2 l d rest ex
    else if g.team1 = t1 ∧ g.team2 = t2 ∧ g.league = l ∧ g.date = d then
      ⟨false, str "A game between these teams in this league already exists on this date",
        some (str "general"), str "error"⟩
    else if g.team1 = t2 ∧ g.team2 = t1 ∧ g.league = l ∧ g.date = d then
      ⟨false, str "A game between these teams in this league already exists on this date",
        some (str "general"), str "error"⟩
    else validate_unique_game t1 t2 l d rest ex

/-- Truthiness of one required field of a candidate record: present and a
nonempty string. -/
def present : Option (List Char) → Bool
  | none => false
  | some [] => false
  | some (_ :: _) => true

/-- The required fields of a candidate record, in source order, paired with
their names. -/
def requiredPairs (gd : GameData) : List (List Char × Option (List Char)) :=
  [(str "sport", gd.sport), (str "league", gd.league), (str "team1", gd.team1),
   (str "team2", gd.team2), (str "score", gd.score), (str "date", gd.date)]

/-- The presence-failure results accumulated by the first loop of
`validate_game_data`: one per missing required field, in source order. -/
def presenceFailures (gd : GameData) : List ValidationResult :=
  (requiredPairs gd).filterMap fun p =>
    if present p.2 then none
    else some ⟨false, p.1 ++ str " is required", some p.1, str "error"⟩

/-- The short-circuit guard of `validate_game_data`. -/
def allPresent (gd : GameData) : Bool :=
  (requiredPairs gd).all fun p => present p.2

/-- The field and cross-field results of `validate_game_data` for a complete
record, in append order: team1, team2, same-team check, league name,
league-sport compatibility, score, date. -/
def fieldResults (gd : GameData) (now : Int) : List ValidationResult :=
  let sport := gd.sport.getD []
  let league := gd.league.getD []
  let team1 := gd.team1.getD []
  let team2 := gd.team2.getD []
  let score := gd.score.getD []
  let date := gd.date.getD []
  [validate_team_name team1 sport, validate_team_name team2 sport] ++
  (if lowerPy (stripPy team1) = lowerPy (stripPy team2) then
    [⟨false, str "Team 1 and Team 2 cannot be the same", some (str "team2"), str "error"⟩]
   else []) ++
  [validate_league_name league,
   validate_league_sport_compatibility league sport,
   validate_score score sport,
   validate_date date now]

/-- `SportsDataValidator.validate_game_data`.  When every required field is
present and `existing_games` is not None, the source reaches
`validate_unique_game(team1, team2, league, date, existing_games,
exclude_id)` at line 295; `exclude_id` is not a name in scope (the parameter
is `exclude_game_id`), so Python raises NameError there and the accumulated
results are discarded.  That path is modelled as `Except.error`; the
`_exclude_game_id` parameter is consequently never read. -/
def validate_game_data (gd : GameData) (existing : Option (List Game))
    (_exclude_game_id : Option Int) (now : Int) :
    Except (List Char) (List ValidationResult) :=
  if allPresent gd then
    match existing with
    | none => .ok (fieldResults gd now)
    | some _ => .error (str "NameError: name exclude_id is not defined")
  else .ok (presenceFailures gd)

/-- The per-game result list computed inside `validate_batch_games`, where
`validate_game_data` is called with no existing games and so cannot reach the
NameError path (the error arm is unreachable there). -/
def gameResultsOf (gd : GameData) (now : Int) : List ValidationResult :=
  match validate_game_data gd none none now with
  | .ok rs => rs
  | .error _ => []

/-- Decimal digits of a number, as used by the f-strings of the batch
validator. -/
def natStr (n : Nat) : List Char := Nat.toDigits 10 n

/-- The field-string coercion of the batch f-string: Python formats a None
field as the string None. -/
def fieldPy : Option (List Char) → List Char
  | some s => s
  | none => str "None"

/-- The renaming applied by the first loop of `validate_batch_games`:
invalid results of error severity get the game index prefixed to their field
name; every other result is passed through unchanged. -/
def renameResult (i : Nat) (r : ValidationResult) : ValidationResult :=
  if r.is_valid = false ∧ r.severity = str "error" then
    let fieldName :=
      if r.field ≠ some (str "general") then
        str "game_" ++ natStr (i + 1) ++ str "." ++ fieldPy r.field
      else str "game_" ++ natStr (i + 1)
    ⟨r.is_valid, r.message, some fieldName, r.severity⟩
  else r

/-- Does a per-game result list count as an invalid game in the batch loop
(at least one invalid result of error severity)? -/
def invalidError (r : ValidationResult) : Bool :=
  !r.is_valid && decide (r.severity = str "error")

/-- The ordered index pairs (i, j) with i < j < n, in the iteration order of
the nested batch-duplicate loops. -/
def pairIndices (n : Nat) : List (Nat × Nat) :=
  (List.range n).flatMap fun i =>
    (List.range (n - (i + 1))).map fun k => (i, i + 1 + k)

/-- The exact-field batch-duplicate test: `Dict.get` equality on team1,
team2, league and date (order-sensitive on the team pair). -/
def exactDup (g h : GameData) : Bool :=
  decide (g.team1 = h.team1 ∧ g.team2 = h.team2 ∧ g.league = h.league ∧ g.date = h.date)

/-- The index pairs flagged by the batch-duplicate loops. -/
def batchDupPairs (gs : List GameData) : List (Nat × Nat) :=
  (pairIndices gs.length).filter fun p =>
    exactDup (gs.getD p.1 default) (gs.getD p.2 default)

/-- The duplicate result appended for a flagged pair. -/
def mkDupResult (p : Nat × Nat) : ValidationResult :=
  ⟨false, str "Duplicate games found between games " ++ natStr (p.1 + 1) ++
    str " and " ++ natStr (p.2 + 1), some (str "game_" ++ natStr (p.1 + 1)), str "error"⟩

/-- `SportsDataValidator.validate_batch_games`: validate each game
individually (renaming the fields of blocking failures), counting games with
no blocking failure, then flag exact duplicates within the batch,
decrementing the count once per flagged pair. -/
def validate_batch_games (gs : List GameData) (now : Int) :
    List ValidationResult × Int :=
  let indiv := gs.enum.foldl
    (fun acc p =>
      let grs := gameResultsOf p.2 now
      (acc.1 ++ grs.map (renameResult p.1),
       acc.2 + (if grs.countP invalidError = 0 then (1 : Int) else 0)))
    ([], 0)
  let dups := batchDupPairs gs
  (indiv.1 ++ dups.map mkDupResult, indiv.2 - dups.length)

/-- The summary dict of `get_validation_summary`. -/
structure VSummary where
  total : Nat
  errors : Nat
  warnings : Nat
  info : Nat
  valid : Nat
deriving DecidableEq, Repr

/-- The per-result update of `get_validation_summary`: a valid result counts
as valid whatever its severity; an invalid one counts under the counter named
by its severity, or nowhere when the severity is none of the three. -/
def summaryStep (s : VSummary) (r : ValidationResult) : VSummary :=
  if r.is_valid then { s with valid := s.valid + 1 }
  else if r.severity = str "error" then { s with errors := s.errors + 1 }
  else if r.severity = str "warning" then { s with warnings := s.warnings + 1 }
  else if r.severity = str "info" then { s with info := s.info + 1 }
  else s

/-- `SportsDataValidator.get_validation_summary`. -/
def get_validation_summary (rs : List ValidationResult) : VSummary :=
  rs.foldl summaryStep ⟨rs.length, 0, 0, 0, 0⟩

/-- The fixed punctuation set of `validate_password_strength`. -/
def pwSpecialChars : List Char := str "!@#$%^&*()_+-=[]\x7b\x7d|;:,.<>?"

/-- `validate_password_strength` of src/utils/auth.py: the list of unmet-rule
messages in source order, and the can-proceed flag. -/
def validate_password_strength (password : List Char) (allow_weak : Bool) :
    List (List Char) × Bool :=
  let errors :=
    (if password.length < 8 then [str "Password must be at least 8 characters long"] else []) ++
    (if password.any isUpperA then []
     else [str "Password must contain at least one uppercase letter"]) ++
    (if password.any isLowerA then []
     else [str "Password must contain at least one lowercase letter"]) ++
    (if password.any isDig then []
     else [str "Password must contain at least one number"]) ++
    (if password.any (fun c => pwSpecialChars.contains c) then []
     else [str "Password must contain at least one special character"])
  (errors, allow_weak || errors.isEmpty)

instance {ε α : Type} [DecidableEq ε] [DecidableEq α] : DecidableEq (Except ε α)
  | .ok a, .ok b =>
    if h : a = b then .isTrue (by rw [h]) else .isFalse (by simp [h])
  | .error a, .error b =>
    if h : a = b then .isTrue (by rw [h]) else .isFalse (by simp [h])
  | .ok _, .error _ => .isFalse (by simp)
  | .error _, .ok _ => .isFalse (by simp)

/-- A concrete complete, individually valid candidate record used by the
concrete theorems below. -/
def gA : GameData :=
  ⟨some (str "Soccer"), some (str "Premier League"), some (str "Arsenal"),
   some (str "Chelsea"), some (str "2-1"), some (str "2024-01-15")⟩

/-- The record `gA` with the two teams swapped. -/
def gAswap : GameData :=
  ⟨some (str "Soccer"), some (str "Premier League"), some (str "Chelsea"),
   some (str "Arsenal"), some (str "2-1"), some (str "2024-01-15")⟩

/-- A fixed validation-time clock: midnight of 2024-06-01, in seconds
relative to the epoch of `parseYMD`. -/
def nowA : Int := 19875 * 86400

/-- The names of the required fields missing from a candidate record, in
source order. -/
def missingNames (gd : GameData) : List (List Char) :=
  (requiredPairs gd).filterMap fun p => if present p.2 then none else some p.1

/-- The record `gA` with its date removed. -/
def gAnoDate : GameData := { gA with date := none }

/-- The concatenation of the renamed per-game result lists, in batch order. -/
def indivRenamedResults (gs : List GameData) (now : Int) : List ValidationResult :=
  gs.enum.flatMap fun p => (gameResultsOf p.2 now).map (renameResult p.1)

/-- The number of games in a batch whose individual validation has no
blocking (invalid, error-severity) result. -/
def indivValidCount (gs : List GameData) (now : Int) : Nat :=
  gs.countP fun gd => decide ((gameResultsOf gd now).countP invalidError = 0)

/-- The severity discipline every passing result actually satisfies:
severity error (the dataclass default) except the future-date warning
(attached to field date) and the high-scoring soccer info (attached to field
score). -/
def passingSevOk (r : ValidationResult) : Prop :=
  r.is_valid = true →
    r.severity = str "error" ∨
    (r.field = some (str "date") ∧ r.severity = str "warning") ∨
    (r.field = some (str "score") ∧ r.severity = str "info")

/-- Claim C1: the claim is right and the code is wrong.  For the complete,
well-formed record `gA` and the existing-games list `[]` (not None),
`validate_game_data` does not return a list of results: it evaluates the
undefined name `exclude_id` and raises NameError, modelled here as the
`Except.error` outcome. -/
theorem C1_game_data_raises_name_error :
    validate_game_data gA (some []) none nowA =
      .error (str "NameError: name exclude_id is not defined") := by decide

/-- Claim C2, counterexample: the Soccer score string 16-0 parses as the two
non-negative integers 16 and 0, yet the sport-specific banding returns a
result with is_valid = false (severity warning), a hard failure the claim
says cannot happen for soccer. -/
theorem C2_counterexample :
    validate_score (str "16-0") (str "Soccer") =
      ⟨false, str "Soccer scores rarely exceed 15 goals", some (str "score"),
        str "warning"⟩ := by decide

/-- Claim C3, counterexample: a passing team-name check is returned with
severity equal to the string error (the dataclass default), the combination
the claim says never occurs. -/
theorem C3_counterexample :
    validate_team_name (str "Arsenal") (str "Soccer") =
      ⟨true, str "Team name is valid", none, str "error"⟩ := by decide

/-- Claim C4, counterexample: two identical, individually valid candidates
submitted together give validCount 1 (the code subtracts one per duplicate
pair, not both members), and a swapped-team pair is not flagged at all
(validCount 2 and every returned result valid), against the claimed
order-insensitive rule that excludes both members. -/
theorem C4_counterexample :
    (validate_batch_games [gA, gA] nowA).2 = 1 ∧
    (validate_batch_games [gA, gAswap] nowA).2 = 2 ∧
    (validate_batch_games [gA, gAswap] nowA).1.all (fun r => r.is_valid) = true := by
  decide

/-- Claim C5, counterexample: for the patternless sport Tennis, the trimmed
score string 3 - 4 does not match digits-dash-digits (the inner spaces break
the match), yet validate_score returns is_valid = true, because the parts are
stripped before int conversion. -/
theorem C5_counterexample :
    validate_score (str "3 - 4") (str "Tennis") =
      ⟨true, str "Score is valid", none, str "error"⟩ := by decide

/-- Claim C8, counterexample: the digit-bearing name Arsenal 2 is within the
length bounds and contains none of the claimed denylist characters, yet
validate_team_name rejects it for Soccer (the Soccer pattern has no digit
class). -/
theorem C8_counterexample :
    validate_team_name (str "Arsenal 2") (str "Soccer") =
      ⟨false, str "Team name contains invalid characters for Soccer",
        some (str "team_name"), str "error"⟩ := by decide

/-- Claim C6, confirmed: validate_unique_game reports a duplicate (an
is_valid = false result) if and only if some existing game that the
exclusion guard does not skip has the same league, the same date, and the
same participant pair up to order — equality of pairs up to swapping is
exactly unordered-pair equality, so a swapped existing record still makes
the candidate a duplicate. -/
theorem C6_unique_game_order_insensitive (t1 t2 l d : List Char)
    (gs : List Game) (ex : Option Int) :
    (validate_unique_game t1 t2 l d gs ex).is_valid = false ↔
      ∃ g ∈ gs, excludeMatch ex g = false ∧ g.league = l ∧ g.date = d ∧
        ((g.team1 = t1 ∧ g.team2 = t2) ∨ (g.team1 = t2 ∧ g.team2 = t1)) := by
  induction gs with
  | nil => simp [validate_unique_game]
  | cons g rest ih =>
    simp only [validate_unique_game]
    split
    next hex =>
      rw [ih]
      simp only [List.mem_cons]
      constructor
      · rintro ⟨g2, hg2, h⟩
        exact ⟨g2, Or.inr hg2, h⟩
      · rintro ⟨g2, hg2, hne, h⟩
        rcases hg2 with rfl | hm
        · rw [hex] at hne; cases hne
        · exact ⟨g2, hm, hne, h⟩
    next hex =>
      split
      next h1 =>
        simp only [List.mem_cons]
        constructor
        · intro _
          exact ⟨g, Or.inl rfl, Bool.eq_false_iff.mpr hex, h1.2.2.1, h1.2.2.2,
            Or.inl ⟨h1.1, h1.2.1⟩⟩
        · intro _; trivial
      next h1 =>
        split
        next h2 =>
          simp only [List.mem_cons]
          constructor
          · intro _
            exact ⟨g, Or.inl rfl, Bool.eq_false_iff.mpr hex, h2.2.2.1, h2.2.2.2,
              Or.inr ⟨h2.1, h2.2.1⟩⟩
          · intro _; trivial
        next h2 =>
          rw [ih]
          simp only [List.mem_cons]
          constructor
          · rintro ⟨g2, hg2, h⟩
            exact ⟨g2, Or.inr hg2, h⟩
          · rintro ⟨g2, hg2, hne, h⟩
            rcases hg2 with rfl | hm
            · exfalso
              obtain ⟨hl, hd, hp⟩ := h
              rcases hp with ⟨ha, hb⟩ | ⟨ha, hb⟩
              · exact h1 ⟨ha, hb, hl, hd⟩
              · exact h2 ⟨ha, hb, hl, hd⟩
            · exact ⟨g2, hm, hne, h⟩

lemma summaryStep_foldl (rs : List ValidationResult) (s : VSummary) :
    rs.foldl summaryStep s =
      ⟨s.total,
       s.errors + rs.countP (fun r => !r.is_valid && decide (r.severity = str "error")),
       s.warnings + rs.countP (fun r => !r.is_valid && decide (r.severity = str "warning")),
       s.info + rs.countP (fun r => !r.is_valid && decide (r.severity = str "info")),
       s.valid + rs.countP (fun r => r.is_valid)⟩ := by
  have dew := eq_false (by decide : ¬ str "error" = str "warning")
  have dei := eq_false (by decide : ¬ str "error" = str "info")
  have dwe := eq_false (by decide : ¬ str "warning" = str "error")
  have dwi := eq_false (by decide : ¬ str "warning" = str "info")
  have die := eq_false (by decide : ¬ str "info" = str "error")
  have diw := eq_false (by decide : ¬ str "info" = str "warning")
  induction rs generalizing s with
  | nil => simp
  | cons r rest ih =>
    simp only [List.foldl_cons, List.countP_cons]
    rw [ih]
    by_cases hv : r.is_valid
    · simp [summaryStep, hv]; omega
    · by_cases he : r.severity = str "error"
      · simp [summaryStep, hv, he, dew, dei]; omega
      · by_cases hw : r.severity = str "warning"
        · simp [summaryStep, hv, hw, dwe, dwi]; omega
        · by_cases hi : r.severity = str "info"
          · simp [summaryStep, hv, hi, die, diw]; omega
          · simp [summaryStep, hv, he, hw, hi]

lemma counts_partition (rs : List ValidationResult)
    (h : ∀ r ∈ rs, r.is_valid = false →
      r.severity = str "error" ∨ r.severity = str "warning" ∨ r.severity = str "info") :
    rs.countP (fun r => r.is_valid) +
    rs.countP (fun r => !r.is_valid && decide (r.severity = str "error")) +
    rs.countP (fun r => !r.is_valid && decide (r.severity = str "warning")) +
    rs.countP (fun r => !r.is_valid && decide (r.severity = str "info")) = rs.length := by
  have dew := eq_false (by decide : ¬ str "error" = str "warning")
  have dei := eq_false (by decide : ¬ str "error" = str "info")
  have dwe := eq_false (by decide : ¬ str "warning" = str "error")
  have dwi := eq_false (by decide : ¬ str "warning" = str "info")
  have die := eq_false (by decide : ¬ str "info" = str "error")
  have diw := eq_false (by decide : ¬ str "info" = str "warning")
  induction rs with
  | nil => simp
  | cons r rest ih =>
    have hr := h r (List.mem_cons_self r rest)
    have hrest := ih fun x hm => h x (List.mem_cons_of_mem _ hm)
    simp only [List.countP_cons, List.length_cons]
    by_cases hv : r.is_valid
    · simp [hv]; omega
    · rcases hr (Bool.eq_false_iff.mpr hv) with he | hw | hi
      · simp [hv, he, dew, dei]; omega
      · simp [hv, hw, dwe, dwi]; omega
      · simp [hv, hi, die, diw]; omega

/-- Claim C10, confirmed: the summary total is the list length; a valid
result increments only the valid counter regardless of severity; an invalid
result increments exactly the counter named by its severity when that
severity is error, warning or info (and no counter otherwise); hence
valid + errors + warnings + info = total whenever every invalid result
carries one of the three severities. -/
theorem C10_summary_counts (rs : List ValidationResult) :
    (get_validation_summary rs).total = rs.length ∧
    (get_validation_summary rs).valid = rs.countP (fun r => r.is_valid) ∧
    (get_validation_summary rs).errors =
      rs.countP (fun r => !r.is_valid && decide (r.severity = str "error")) ∧
    (get_validation_summary rs).warnings =
      rs.countP (fun r => !r.is_valid && decide (r.severity = str "warning")) ∧
    (get_validation_summary rs).info =
      rs.countP (fun r => !r.is_valid && decide (r.severity = str "info")) ∧
    ((∀ r ∈ rs, r.is_valid = false →
        r.severity = str "error" ∨ r.severity = str "warning" ∨ r.severity = str "info") →
      (get_validation_summary rs).valid + (get_validation_summary rs).errors +
        (get_validation_summary rs).warnings + (get_validation_summary rs).info =
        (get_validation_summary rs).total) := by
  unfold get_validation_summary
  rw [summaryStep_foldl]
  refine ⟨rfl, by simp, by simp, by simp, by simp, fun h => ?_⟩
  have := counts_partition rs h
  simp
  omega

/-- Witness for C10: the counted-partition equation instantiated at a
concrete mixed result list, discharging the severity hypothesis. -/
theorem C10_summary_counts_witness :
    (get_validation_summary
        [⟨true, [], none, str "error"⟩, ⟨false, [], none, str "warning"⟩,
         ⟨false, [], some (str "score"), str "error"⟩]).valid +
      (get_validation_summary
        [⟨true, [], none, str "error"⟩, ⟨false, [], none, str "warning"⟩,
         ⟨false, [], some (str "score"), str "error"⟩]).errors +
      (get_validation_summary
        [⟨true, [], none, str "error"⟩, ⟨false, [], none, str "warning"⟩,
         ⟨false, [], some (str "score"), str "error"⟩]).warnings +
      (get_validation_summary
        [⟨true, [], none, str "error"⟩, ⟨false, [], none, str "warning"⟩,
         ⟨false, [], some (str "score"), str "error"⟩]).info =
      (get_validation_summary
        [⟨true, [], none, str "error"⟩, ⟨false, [], none, str "warning"⟩,
         ⟨false, [], some (str "score"), str "error"⟩]).total :=
  (C10_summary_counts _).2.2.2.2.2 (by decide)

lemma allPresent_iff_missingNames (gd : GameData) :
    allPresent gd = true ↔ missingNames gd = [] := by
  unfold allPresent missingNames
  induction requiredPairs gd with
  | nil => simp
  | cons p rest ih =>
    by_cases hp : present p.2
    · simp [hp, ih]
    · simp [hp]

lemma presenceFailures_eq_map (gd : GameData) :
    presenceFailures gd = (missingNames gd).map
      (fun n => ⟨false, n ++ str " is required", some n, str "error"⟩) := by
  unfold presenceFailures missingNames
  induction requiredPairs gd with
  | nil => simp
  | cons p rest ih =>
    by_cases hp : present p.2
    · simp [hp, ih]
    · simp [hp, ih]

/-- Claim C7, confirmed: whenever at least one required field is absent or
empty, validate_game_data returns exactly one presence-failure result per
missing field (in source order) and nothing else — no field-validator,
self-match, compatibility or duplicate results are produced. -/
theorem C7_short_circuit (gd : GameData) (existing : Option (List Game))
    (eid : Option Int) (now : Int) (h : missingNames gd ≠ []) :
    validate_game_data gd existing eid now =
      .ok ((missingNames gd).map
        (fun n => ⟨false, n ++ str " is required", some n, str "error"⟩)) := by
  have hap : ¬ allPresent gd = true := fun hc =>
    h ((allPresent_iff_missingNames gd).mp hc)
  unfold validate_game_data
  rw [if_neg hap, presenceFailures_eq_map]

/-- Witness for C7: a record missing only its date yields exactly the date
presence failure — in particular no score-field or league-field results. -/
theorem C7_short_circuit_witness :
    validate_game_data gAnoDate (some []) none 0 =
      .ok [⟨false, str "date is required", some (str "date"), str "error"⟩] :=
  (C7_short_circuit gAnoDate (some []) none 0 (by decide)).trans (by decide)

lemma mem_ite_singleton {α : Type} (x m : α) (c : Prop) [Decidable c] :
    (x ∈ if c then [m] else ([] : List α)) ↔ (c ∧ x = m) := by
  split_ifs with h <;> simp [h]

lemma vps_fst (p : List Char) (w : Bool) :
    (validate_password_strength p w).1 =
      (if p.length < 8 then [str "Password must be at least 8 characters long"] else []) ++
      (if ¬ p.any isUpperA = true then [str "Password must contain at least one uppercase letter"] else []) ++
      (if ¬ p.any isLowerA = true then [str "Password must contain at least one lowercase letter"] else []) ++
      (if ¬ p.any isDig = true then [str "Password must contain at least one number"] else []) ++
      (if ¬ p.any (fun c => pwSpecialChars.contains c) = true then
        [str "Password must contain at least one special character"] else []) := by
  unfold validate_password_strength
  by_cases h1 : p.length < 8 <;>
  by_cases h2 : p.any isUpperA = true <;>
  by_cases h3 : p.any isLowerA = true <;>
  by_cases h4 : p.any isDig = true <;>
  by_cases h5 : p.any (fun c => pwSpecialChars.contains c) = true <;>
    simp only [h1, h2, h3, h4, h5, if_true, if_false, if_pos, if_neg, not_true,
      not_false_iff] <;> rfl

/-- Claim C9, confirmed: validate_password_strength returns exactly the
unmet-rule messages among the five rules (length at least 8, an uppercase
letter, a lowercase letter, a digit, a symbol from the fixed punctuation
set): each message is present iff its rule is unmet, and nothing else ever
appears; the password abc12345 yields exactly the uppercase and
special-character messages; with allow_weak true the can-proceed flag is
always true, and with allow_weak false it is true iff the error list is
empty. -/
theorem C9_password_strength (p : List Char) (w : Bool) :
    (str "Password must be at least 8 characters long" ∈ (validate_password_strength p w).1
      ↔ p.length < 8) ∧
    (str "Password must contain at least one uppercase letter" ∈ (validate_password_strength p w).1
      ↔ p.any isUpperA = false) ∧
    (str "Password must contain at least one lowercase letter" ∈ (validate_password_strength p w).1
      ↔ p.any isLowerA = false) ∧
    (str "Password must contain at least one number" ∈ (validate_password_strength p w).1
      ↔ p.any isDig = false) ∧
    (str "Password must contain at least one special character" ∈ (validate_password_strength p w).1
      ↔ p.any (fun c => pwSpecialChars.contains c) = false) ∧
    (∀ m ∈ (validate_password_strength p w).1,
      m = str "Password must be at least 8 characters long" ∨
      m = str "Password must contain at least one uppercase letter" ∨
      m = str "Password must contain at least one lowercase letter" ∨
      m = str "Password must contain at least one number" ∨
      m = str "Password must contain at least one special character") ∧
    (validate_password_strength p true).2 = true ∧
    ((validate_password_strength p false).2 = true ↔ (validate_password_strength p false).1 = []) ∧
    (validate_password_strength (str "abc12345") w).1 =
      [str "Password must contain at least one uppercase letter",
       str "Password must contain at least one special character"] := by
  have d12 : str "Password must be at least 8 characters long" ≠
      str "Password must contain at least one uppercase letter" := by decide
  have d13 : str "Password must be at least 8 characters long" ≠
      str "Password must contain at least one lowercase letter" := by decide
  have d14 : str "Password must be at least 8 characters long" ≠
      str "Password must contain at least one number" := by decide
  have d15 : str "Password must be at least 8 characters long" ≠
      str "Password must contain at least one special character" := by decide
  have d23 : str "Password must contain at least one uppercase letter" ≠
      str "Password must contain at least one lowercase letter" := by decide
  have d24 : str "Password must contain at least one uppercase letter" ≠
      str "Password must contain at least one number" := by decide
  have d25 : str "Password must contain at least one uppercase letter" ≠
      str "Password must contain at least one special character" := by decide
  have d34 : str "Password must contain at least one lowercase letter" ≠
      str "Password must contain at least one number" := by decide
  have d35 : str "Password must contain at least one lowercase letter" ≠
      str "Password must contain at least one special character" := by decide
  have d45 : str "Password must contain at least one number" ≠
      str "Password must contain at least one special character" := by decide
  refine ⟨?_, ?_, ?_, ?_, ?_, ?_, ?_, ?_, ?_⟩
  · rw [vps_fst]
    simp only [List.mem_append, mem_ite_singleton]
    constructor
    · rintro ((((⟨h, hm⟩ | ⟨h, hm⟩) | ⟨h, hm⟩) | ⟨h, hm⟩) | ⟨h, hm⟩)
      · exact h
      · exact absurd hm d12
      · exact absurd hm d13
      · exact absurd hm d14
      · exact absurd hm d15
    · intro h; exact Or.inl (Or.inl (Or.inl (Or.inl ⟨h, trivial⟩)))
  · rw [vps_fst]
    simp only [List.mem_append, mem_ite_singleton]
    constructor
    · rintro ((((⟨h, hm⟩ | ⟨h, hm⟩) | ⟨h, hm⟩) | ⟨h, hm⟩) | ⟨h, hm⟩)
      · exact absurd hm.symm d12
      · exact Bool.eq_false_iff.mpr h
      · exact absurd hm d23
      · exact absurd hm d24
      · exact absurd hm d25
    · intro h
      exact Or.inl (Or.inl (Or.inl (Or.inr ⟨by rw [h]; simp, trivial⟩)))
  · rw [vps_fst]
    simp only [List.mem_append, mem_ite_singleton]
    constructor
    · rintro ((((⟨h, hm⟩ | ⟨h, hm⟩) | ⟨h, hm⟩) | ⟨h, hm⟩) | ⟨h, hm⟩)
      · exact absurd hm.symm d13
      · exact absurd hm.symm d23
      · exact Bool.eq_false_iff.mpr h
      · exact absurd hm d34
      · exact absurd hm d35
    · intro h
      exact Or.inl (Or.inl (Or.inr ⟨by rw [h]; simp, trivial⟩))
  · rw [vps_fst]
    simp only [List.mem_append, mem_ite_singleton]
    constructor
    · rintro ((((⟨h, hm⟩ | ⟨h, hm⟩) | ⟨h, hm⟩) | ⟨h, hm⟩) | ⟨h, hm⟩)
      · exact absurd hm.symm d14
      · exact absurd hm.symm d24
      · exact absurd hm.symm d34
      · exact Bool.eq_false_iff.mpr h
      · exact absurd hm d45
    · intro h
      exact Or.inl (Or.inr ⟨by rw [h]; simp, trivial⟩)
  · rw [vps_fst]
    simp only [List.mem_append, mem_ite_singleton]
    constructor
    · rintro ((((⟨h, hm⟩ | ⟨h, hm⟩) | ⟨h, hm⟩) | ⟨h, hm⟩) | ⟨h, hm⟩)
      · exact absurd hm.symm d15
      · exact absurd hm.symm d25
      · exact absurd hm.symm d35
      · exact absurd hm.symm d45
      · exact Bool.eq_false_iff.mpr h
    · intro h
      exact Or.inr ⟨by rw [h]; simp, trivial⟩
  · intro m hm
    rw [vps_fst] at hm
    simp only [List.mem_append, mem_ite_singleton] at hm
    rcases hm with ((((⟨_, hm⟩ | ⟨_, hm⟩) | ⟨_, hm⟩) | ⟨_, hm⟩) | ⟨_, hm⟩)
    · exact Or.inl hm
    · exact Or.inr (Or.inl hm)
    · exact Or.inr (Or.inr (Or.inl hm))
    · exact Or.inr (Or.inr (Or.inr (Or.inl hm)))
    · exact Or.inr (Or.inr (Or.inr (Or.inr hm)))
  · rfl
  · show (false || (validate_password_strength p false).1.isEmpty) = true ↔ _
    simp [List.isEmpty_iff]
  · rw [vps_fst]; decide

/-- Witness for C9: the uppercase-rule message appears for a concrete
password with no uppercase letter. -/
theorem C9_password_strength_witness :
    str "Password must contain at least one uppercase letter" ∈
      (validate_password_strength (str "abc12345") true).1 :=
  ((C9_password_strength (str "abc12345") true).2.1).mpr (by decide)

lemma soccer_pattern_sub (l : List Char) :
    matchesSoccerScore l = true → matchesIntDashInt l = true := by
  unfold matchesSoccerScore matchesIntDashInt
  intro h
  rw [Bool.and_eq_true] at h ⊢
  obtain ⟨h1, h2⟩ := h
  constructor
  · rw [Bool.and_eq_true] at h1
    rcases h1 with ⟨h1a, _⟩
    cases hd : (l.takeWhile isDig).isEmpty
    · rfl
    · rw [List.isEmpty_iff] at hd
      rw [hd] at h1a
      simp at h1a
  · split at h2
    next heq => exact h2
    next c r2 heq =>
      split at h2
      next hc =>
        rw [if_pos hc]
        simp only [Bool.and_eq_true, decide_eq_true_eq] at h2
        obtain ⟨⟨h2a, _⟩, _⟩ := h2
        cases hd : (r2.takeWhile isDig).isEmpty
        · rfl
        · rw [List.isEmpty_iff] at hd
          rw [hd] at h2a
          simp at h2a
      next hc => exact absurd h2 (by simp)

lemma basketball_pattern_sub (l : List Char) :
    matchesBasketballScore l = true → matchesIntDashInt l = true := by
  unfold matchesBasketballScore matchesIntDashInt
  intro h
  rw [Bool.and_eq_true] at h ⊢
  obtain ⟨h1, h2⟩ := h
  constructor
  · rw [Bool.and_eq_true] at h1
    rcases h1 with ⟨h1a, _⟩
    cases hd : (l.takeWhile isDig).isEmpty
    · rfl
    · rw [List.isEmpty_iff] at hd
      rw [hd] at h1a
      simp at h1a
  · split at h2
    next heq => exact h2
    next c r2 heq =>
      split at h2
      next hc =>
        rw [if_pos hc]
        simp only [Bool.and_eq_true, decide_eq_true_eq] at h2
        obtain ⟨⟨h2a, _⟩, _⟩ := h2
        cases hd : (r2.takeWhile isDig).isEmpty
        · rfl
        · rw [List.isEmpty_iff] at hd
          rw [hd] at h2a
          simp at h2a
      next hc => exact absurd h2 (by simp)

/-- Claim C5 amended: for the two sports with a score pattern (Soccer and
Basketball), every score string whose trimmed form does not prefix-match
digits-dash-digits is rejected with field score; for patternless sports the
original claim fails, since dash-separated parts are stripped and parsed
individually (see the counterexample). -/
theorem C5_score_format (sport s : List Char)
    (hsp : sport = str "Soccer" ∨ sport = str "Basketball")
    (hm : matchesIntDashInt (stripPy s) = false) :
    (validate_score s sport).is_valid = false ∧
    (validate_score s sport).field = some (str "score") := by
  unfold validate_score
  split
  next => exact ⟨rfl, rfl⟩
  next h =>
    have hfmt : (sport = str "Soccer" ∧ matchesSoccerScore (stripPy s) = false) ∨
        (sport = str "Basketball" ∧ matchesBasketballScore (stripPy s) = false) := by
      rcases hsp with rfl | rfl
      · left
        refine ⟨rfl, ?_⟩
        cases hms : matchesSoccerScore (stripPy s)
        · rfl
        · rw [soccer_pattern_sub _ hms] at hm; cases hm
      · right
        refine ⟨rfl, ?_⟩
        cases hms : matchesBasketballScore (stripPy s)
        · rfl
        · rw [basketball_pattern_sub _ hms] at hm; cases hm
    rw [if_pos hfmt]
    exact ⟨rfl, rfl⟩

/-- Witness for C5: the non-matching string abc is rejected for Soccer. -/
theorem C5_score_format_witness :
    (validate_score (str "abc") (str "Soccer")).is_valid = false ∧
    (validate_score (str "abc") (str "Soccer")).field = some (str "score") :=
  C5_score_format (str "Soccer") (str "abc") (Or.inl rfl) (by decide)

/-- Claim C8 amended: validate_team_name fails exactly when the name is
empty or whitespace-only, the trimmed length is outside 2..50, the sport is
Soccer or Basketball and the trimmed name does not match that sport's
character pattern, or the trimmed name contains one of less-than,
greater-than, double quote, apostrophe, semicolon, or the substring double
dash.  The claimed brace denylist does not exist, and apostrophes, quotes
and digit-bearing Soccer names are rejected (see the counterexample). -/
theorem C8_team_name_characterization (name sport : List Char) :
    (validate_team_name name sport).is_valid = false ↔
      (stripPy name = [] ∨ (stripPy name).length < 2 ∨ 50 < (stripPy name).length ∨
       (sport = str "Soccer" ∧ matchesTeamSoccer (stripPy name) = false) ∨
       (sport = str "Basketball" ∧ matchesTeamBasketball (stripPy name) = false) ∨
       hasBadTeamChar (stripPy name) = true) := by
  unfold validate_team_name
  dsimp only
  split_ifs with h0 h1 h2 h3 h4
  · refine iff_of_true rfl (Or.inl ?_)
    rcases h0 with rfl | h
    · rfl
    · exact h
  · exact iff_of_true rfl (Or.inr (Or.inl h1))
  · exact iff_of_true rfl (Or.inr (Or.inr (Or.inl h2)))
  · refine iff_of_true rfl ?_
    rcases h3 with h | h
    · exact Or.inr (Or.inr (Or.inr (Or.inl h)))
    · exact Or.inr (Or.inr (Or.inr (Or.inr (Or.inl h))))
  · exact iff_of_true rfl (Or.inr (Or.inr (Or.inr (Or.inr (Or.inr h4)))))
  · refine iff_of_false (by simp) ?_
    rintro (h | h | h | h | h | h)
    · exact h0 (Or.inr h)
    · exact h1 h
    · exact h2 h
    · exact h3 (Or.inl h)
    · exact h3 (Or.inr h)
    · exact h4 h

lemma dropWhile_eq_self_of_all (p : Char → Bool) (l : List Char)
    (h : ∀ c ∈ l, p c = false) : l.dropWhile p = l := by
  cases l with
  | nil => rfl
  | cons c r => simp [List.dropWhile_cons, h c (List.mem_cons_self c r)]

lemma stripPy_eq_self (l : List Char) (h : ∀ c ∈ l, isPySpace c = false) :
    stripPy l = l := by
  unfold stripPy
  rw [dropWhile_eq_self_of_all _ _ h,
    dropWhile_eq_self_of_all _ _ (fun c hc => h c (List.mem_reverse.mp hc)),
    List.reverse_reverse]

lemma isDig_not_space (c : Char) (h : isDig c = true) : isPySpace c = false := by
  unfold isDig at h
  unfold isPySpace
  rw [Bool.and_eq_true, decide_eq_true_eq, decide_eq_true_eq] at h
  simp only [Bool.or_eq_false_iff, Bool.and_eq_false_iff, decide_eq_false_iff_not]
  omega

lemma takeWhile_append_cons (p : Char → Bool) (d1 : List Char) (x : Char)
    (r : List Char) (h : ∀ c ∈ d1, p c = true) (hx : p x = false) :
    (d1 ++ x :: r).takeWhile p = d1 := by
  induction d1 with
  | nil => simp [List.takeWhile_cons, hx]
  | cons c d ih =>
    simp only [List.cons_append, List.takeWhile_cons, h c (List.mem_cons_self c d),
      if_true]
    rw [ih (fun c2 hc2 => h c2 (List.mem_cons_of_mem _ hc2))]

lemma takeWhile_of_all (p : Char → Bool) (l : List Char)
    (h : ∀ c ∈ l, p c = true) : l.takeWhile p = l := by
  induction l with
  | nil => rfl
  | cons c r ih =>
    simp only [List.takeWhile_cons, h c (List.mem_cons_self c r), if_true]
    rw [ih (fun x hx => h x (List.mem_cons_of_mem _ hx))]

lemma splitOnDash_cons (c : Char) (r : List Char) :
    splitOnDash (c :: r) =
      (if c = '-' then [] :: splitOnDash r
       else
         match splitOnDash r with
         | [] => [[c]]
         | h :: t => (c :: h) :: t) := rfl

lemma splitOnDash_no_dash (l : List Char) (h : ∀ c ∈ l, ¬ c = '-') :
    splitOnDash l = [l] := by
  induction l with
  | nil => rfl
  | cons c r ih =>
    rw [splitOnDash_cons, if_neg (h c (List.mem_cons_self c r)),
      ih (fun x hx => h x (List.mem_cons_of_mem _ hx))]

lemma splitOnDash_append (d1 r : List Char) (h : ∀ c ∈ d1, ¬ c = '-') :
    splitOnDash (d1 ++ '-' :: r) = d1 :: splitOnDash r := by
  induction d1 with
  | nil => rw [List.nil_append, splitOnDash_cons, if_pos rfl]
  | cons c d ih =>
    rw [List.cons_append, splitOnDash_cons, if_neg (h c (List.mem_cons_self c d)),
      ih (fun x hx => h x (List.mem_cons_of_mem _ hx))]

lemma intTail_of_digits (l : List Char) (h : ∀ c ∈ l, isDig c = true) :
    intTail l = true := by
  induction l with
  | nil => rfl
  | cons c r ih =>
    have hc := h c (List.mem_cons_self c r)
    have hcu : ¬ c = '_' := by
      intro he
      rw [he] at hc
      cases hc
    unfold intTail
    rw [if_neg hcu, hc, ih (fun x hx => h x (List.mem_cons_of_mem _ hx))]
    rfl

lemma foldl_skip_underscore (l : List Char) :
    ∀ (a : Nat), (∀ c ∈ l, ¬ c = '_') →
      l.foldl (fun a c => if c = '_' then a else 10 * a + (c.toNat - 48)) a =
      l.foldl (fun a c => 10 * a + (c.toNat - 48)) a := by
  induction l with
  | nil => intro a _; rfl
  | cons c r ih =>
    intro a h
    simp only [List.foldl_cons]
    rw [if_neg (h c (List.mem_cons_self c r))]
    exact ih _ (fun x hx => h x (List.mem_cons_of_mem _ hx))

lemma digit_ne_underscore (l : List Char) (h : ∀ c ∈ l, isDig c = true) :
    ∀ c ∈ l, ¬ c = '_' := by
  intro c hc he
  have := h c hc
  rw [he] at this
  cases this

lemma pyInt_of_digits (l : List Char) (hne : l ≠ []) (h : ∀ c ∈ l, isDig c = true) :
    pyInt l = some ((digitsToNat l : Nat) : Int) := by
  unfold pyInt
  rw [stripPy_eq_self l (fun c hc => isDig_not_space c (h c hc))]
  cases l with
  | nil => cases hne rfl
  | cons c r =>
    have hc := h c (List.mem_cons_self c r)
    have hplus : ¬ c = '+' := by intro he; rw [he] at hc; cases hc
    have hminus : ¬ c = '-' := by intro he; rw [he] at hc; cases hc
    have hbody : intBody (c :: r) = true := by
      show (isDig c && intTail r) = true
      rw [hc, intTail_of_digits r (fun x hx => h x (List.mem_cons_of_mem _ hx))]
      rfl
    try dsimp only
    rw [if_neg hplus, if_neg hminus, if_pos hbody]
    unfold intBodyVal digitsToNat
    rw [foldl_skip_underscore _ 0 (digit_ne_underscore _ h)]

lemma digit_ne_dash (l : List Char) (h : ∀ c ∈ l, isDig c = true) :
    ∀ c ∈ l, ¬ c = '-' := by
  intro c hc he
  have := h c hc
  rw [he] at this
  cases this

/-- Claim C2 amended: for Soccer, on every score that passes the format
pattern (one or two digits each side) and parses as (a, b), the banding is
three-way with thresholds 10 and 15, and the high band is blocking: above 15
the result is is_valid = false with severity warning; in (10, 15] it is
valid with info severity; otherwise valid with the default severity. -/
theorem C2_soccer_banding (d1 d2 : List Char) (a b : Nat)
    (h1 : ∀ c ∈ d1, isDig c = true) (h2 : ∀ c ∈ d2, isDig c = true)
    (hl1 : 1 ≤ d1.length) (hl1b : d1.length ≤ 2)
    (hl2 : 1 ≤ d2.length) (hl2b : d2.length ≤ 2)
    (ha : digitsToNat d1 = a) (hb : digitsToNat d2 = b) :
    validate_score (d1 ++ '-' :: d2) (str "Soccer") =
      (if 15 < a ∨ 15 < b then
        ⟨false, str "Soccer scores rarely exceed 15 goals", some (str "score"), str "warning"⟩
       else if 10 < a ∨ 10 < b then
        ⟨true, str "High scoring game detected", some (str "score"), str "info"⟩
       else ⟨true, str "Score is valid", none, str "error"⟩) := by
  have hd1ne : d1 ≠ [] := by
    intro he
    rw [he] at hl1
    simp at hl1
  have hd2ne : d2 ≠ [] := by
    intro he
    rw [he] at hl2
    simp at hl2
  have hs : stripPy (d1 ++ '-' :: d2) = d1 ++ '-' :: d2 := by
    apply stripPy_eq_self
    intro c hc
    rcases List.mem_append.mp hc with hm | hm
    · exact isDig_not_space c (h1 c hm)
    · rcases List.mem_cons.mp hm with rfl | hm2
      · decide
      · exact isDig_not_space c (h2 c hm2)
  have hne : ¬ (d1 ++ '-' :: d2 = [] ∨ stripPy (d1 ++ '-' :: d2) = []) := by
    rw [hs]
    rintro (hz | hz) <;> exact absurd hz (by simp)
  have htw : (d1 ++ '-' :: d2).takeWhile isDig = d1 :=
    takeWhile_append_cons _ _ _ _ h1 (by decide)
  have hmatch : matchesSoccerScore (d1 ++ '-' :: d2) = true := by
    unfold matchesSoccerScore
    try dsimp only
    rw [htw, List.drop_left]
    show (_ && if ('-' : Char) = '-' then _ else false) = true
    rw [if_pos rfl]
    rw [takeWhile_of_all _ _ h2, List.drop_length]
    simp [hl1, hl1b, hl2, hl2b]
  unfold validate_score
  rw [if_neg hne]
  try dsimp only
  rw [hs]
  have hfmt : ¬ ((str "Soccer" = str "Soccer" ∧ matchesSoccerScore (d1 ++ '-' :: d2) = false) ∨
      (str "Soccer" = str "Basketball" ∧ matchesBasketballScore (d1 ++ '-' :: d2) = false)) := by
    rintro (⟨_, hf⟩ | ⟨hsp, _⟩)
    · rw [hmatch] at hf; cases hf
    · exact (by decide : ¬ str "Soccer" = str "Basketball") hsp
  rw [if_neg hfmt]
  rw [splitOnDash_append d1 d2 (digit_ne_dash _ h1), splitOnDash_no_dash d2 (digit_ne_dash _ h2)]
  try dsimp only
  rw [stripPy_eq_self d1 (fun c hc => isDig_not_space c (h1 c hc)),
    stripPy_eq_self d2 (fun c hc => isDig_not_space c (h2 c hc)),
    pyInt_of_digits d1 hd1ne h1, pyInt_of_digits d2 hd2ne h2, ha, hb]
  try dsimp only
  have hnonneg : ¬ ((a : Int) < 0 ∨ (b : Int) < 0) := by omega
  rw [if_neg hnonneg, if_pos rfl]
  by_cases h15 : 15 < a ∨ 15 < b
  · have hi : ((a : Int) > 15 ∨ (b : Int) > 15) := by omega
    rw [if_pos hi, if_pos h15]
  · have hi : ¬ ((a : Int) > 15 ∨ (b : Int) > 15) := by omega
    rw [if_neg hi, if_neg h15]
    by_cases h10 : 10 < a ∨ 10 < b
    · have hj : ((a : Int) > 10 ∨ (b : Int) > 10) := by omega
      rw [if_pos hj, if_pos h10]
    · have hj : ¬ ((a : Int) > 10 ∨ (b : Int) > 10) := by omega
      rw [if_neg hj, if_neg h10]

/-- Witness for C2: the score 12-0 lands in the info band. -/
theorem C2_soccer_banding_witness :
    validate_score (str "12-0") (str "Soccer") =
      ⟨true, str "High scoring game detected", some (str "score"), str "info"⟩ := by
  have h := C2_soccer_banding (str "12") (str "0") 12 0 (by decide) (by decide)
    (by decide) (by decide) (by decide) (by decide) rfl rfl
  exact h.trans (by decide)

lemma batch_indiv_foldl (now : Int) (l : List (Nat × GameData))
    (acc : List ValidationResult × Int) :
    (l.foldl (fun acc p =>
      let grs := gameResultsOf p.2 now
      (acc.1 ++ grs.map (renameResult p.1),
       acc.2 + (if grs.countP invalidError = 0 then (1 : Int) else 0))) acc) =
    (acc.1 ++ l.flatMap (fun p => (gameResultsOf p.2 now).map (renameResult p.1)),
     acc.2 + (l.countP (fun p =>
       decide ((gameResultsOf p.2 now).countP invalidError = 0)) : Int)) := by
  induction l generalizing acc with
  | nil => simp
  | cons p rest ih =>
    simp only [List.foldl_cons, List.flatMap_cons, List.countP_cons]
    rw [ih]
    by_cases hc : (gameResultsOf p.2 now).countP invalidError = 0
    · simp [hc, List.append_assoc]
      omega
    · simp [hc, List.append_assoc]

lemma countP_enumFrom (gs : List GameData) (f : GameData → Bool) :
    ∀ n : Nat, (List.enumFrom n gs).countP (fun p => f p.2) = gs.countP f := by
  induction gs with
  | nil => intro n; rfl
  | cons g rest ih =>
    intro n
    simp only [List.enumFrom, List.countP_cons, ih]

lemma batch_spec (gs : List GameData) (now : Int) :
    validate_batch_games gs now =
      (indivRenamedResults gs now ++ (batchDupPairs gs).map mkDupResult,
       (indivValidCount gs now : Int) - (batchDupPairs gs).length) := by
  unfold validate_batch_games
  rw [batch_indiv_foldl]
  simp only [List.nil_append, zero_add]
  unfold indivRenamedResults indivValidCount
  rw [show gs.enum = List.enumFrom 0 gs from rfl,
    countP_enumFrom gs (fun gd => decide ((gameResultsOf gd now).countP invalidError = 0)) 0]

/-- Claim C4 amended: batch duplicate detection is order-sensitive — a pair
(i, j) with i lower is flagged iff the two candidates agree exactly on
team1, team2, league and date (a swapped pair is not flagged); the result
list is the renamed individual results followed by one duplicate result per
flagged pair, and validCount is the number of individually valid candidates
minus the number of flagged pairs (one decrement per pair, not two). -/
theorem C4_batch_duplicates (gs : List GameData) (now : Int) :
    (validate_batch_games gs now).2 =
      (indivValidCount gs now : Int) - (batchDupPairs gs).length ∧
    (validate_batch_games gs now).1 =
      indivRenamedResults gs now ++ (batchDupPairs gs).map mkDupResult ∧
    (∀ i j : Nat, (i, j) ∈ batchDupPairs gs ↔
      (i < j ∧ j < gs.length ∧
       (gs.getD i default).team1 = (gs.getD j default).team1 ∧
       (gs.getD i default).team2 = (gs.getD j default).team2 ∧
       (gs.getD i default).league = (gs.getD j default).league ∧
       (gs.getD i default).date = (gs.getD j default).date)) := by
  refine ⟨by rw [batch_spec], by rw [batch_spec], ?_⟩
  intro i j
  unfold batchDupPairs pairIndices exactDup
  simp only [List.mem_filter, List.mem_flatMap, List.mem_range, List.mem_map,
    Prod.mk.injEq, decide_eq_true_eq]
  constructor
  · rintro ⟨⟨i2, hi2, k, hk, hik, hjk⟩, h1, h2, h3, h4⟩
    subst hik
    subst hjk
    exact ⟨by omega, by omega, h1, h2, h3, h4⟩
  · rintro ⟨hij, hj, h1, h2, h3, h4⟩
    exact ⟨⟨i, by omega, j - i - 1, by omega, rfl, by omega⟩, h1, h2, h3, h4⟩

/-- Witness for C4: the identical pair in a two-element batch is flagged as
the index pair (0, 1). -/
theorem C4_batch_duplicates_witness : ((0 : Nat), (1 : Nat)) ∈ batchDupPairs [gA, gA] :=
  ((C4_batch_duplicates [gA, gA] nowA).2.2 0 1).mpr (by decide)

lemma team_name_sev (n s : List Char) :
    (validate_team_name n s).severity = str "error" := by
  unfold validate_team_name
  try dsimp only
  split_ifs <;> rfl

lemma league_name_sev (l : List Char) :
    (validate_league_name l).severity = str "error" := by
  unfold validate_league_name
  try dsimp only
  split_ifs <;> rfl

lemma date_passing (d : List Char) (now : Int) :
    passingSevOk (validate_date d now) := by
  unfold passingSevOk validate_date
  try dsimp only
  repeat' split
  all_goals
    first
      | (intro _; exact Or.inl rfl)
      | (intro _; exact Or.inr (Or.inl ⟨rfl, rfl⟩))

lemma score_passing (sc sp : List Char) :
    passingSevOk (validate_score sc sp) := by
  unfold passingSevOk validate_score
  try dsimp only
  repeat' split
  all_goals
    first
      | (intro _; exact Or.inl rfl)
      | (intro _; exact Or.inr (Or.inr ⟨rfl, rfl⟩))
      | (intro h; cases h)

lemma compat_passing (l s : List Char) :
    passingSevOk (validate_league_sport_compatibility l s) := by
  unfold passingSevOk validate_league_sport_compatibility
  try dsimp only
  repeat' split
  all_goals
    first
      | (intro _; exact Or.inl rfl)
      | (intro h; cases h)

lemma unique_sev (t1 t2 l d : List Char) (gs : List Game) (ex : Option Int) :
    (validate_unique_game t1 t2 l d gs ex).severity = str "error" := by
  induction gs with
  | nil => rfl
  | cons g rest ih =>
    unfold validate_unique_game
    split_ifs <;> first | rfl | exact ih

lemma presenceFailures_invalid (gd : GameData) :
    ∀ r ∈ presenceFailures gd, r.is_valid = false := by
  intro r hr
  unfold presenceFailures at hr
  rcases List.mem_filterMap.mp hr with ⟨p, _, h⟩
  split at h
  · cases h
  · cases h
    rfl

lemma fieldResults_passing (gd : GameData) (now : Int) :
    ∀ r ∈ fieldResults gd now, passingSevOk r := by
  intro r hr
  unfold fieldResults at hr
  simp only [List.mem_append, List.mem_cons, List.not_mem_nil, or_false,
    false_or, mem_ite_singleton] at hr
  rcases hr with ((rfl | rfl) | ⟨_, rfl⟩) | rfl | rfl | rfl | rfl
  · exact fun _ => Or.inl (team_name_sev _ _)
  · exact fun _ => Or.inl (team_name_sev _ _)
  · intro hv; cases hv
  · exact fun _ => Or.inl (league_name_sev _)
  · exact compat_passing _ _
  · exact score_passing _ _
  · exact date_passing _ _

lemma gameResultsOf_eq (gd : GameData) (now : Int) :
    gameResultsOf gd now =
      if allPresent gd then fieldResults gd now else presenceFailures gd := by
  unfold gameResultsOf validate_game_data
  split_ifs <;> rfl

lemma gameResultsOf_passing (gd : GameData) (now : Int) :
    ∀ r ∈ gameResultsOf gd now, passingSevOk r := by
  intro r hr
  rw [gameResultsOf_eq] at hr
  split at hr
  · exact fieldResults_passing _ _ r hr
  · intro hv
    rw [presenceFailures_invalid gd r hr] at hv
    cases hv

lemma game_data_ok_passing (gd : GameData) (ex : Option (List Game))
    (eid : Option Int) (now : Int) (rs : List ValidationResult)
    (h : validate_game_data gd ex eid now = .ok rs) :
    ∀ r ∈ rs, passingSevOk r := by
  unfold validate_game_data at h
  split_ifs at h
  · cases ex with
    | none =>
      cases h
      exact fieldResults_passing _ _
    | some l =>
      cases h
  · cases h
    intro r hr
    intro hv
    rw [presenceFailures_invalid gd r hr] at hv
    cases hv

lemma renameResult_passing (i : Nat) (r : ValidationResult)
    (h : passingSevOk r) : passingSevOk (renameResult i r) := by
  unfold renameResult
  split
  next hc =>
    intro hv
    rw [hc.1] at hv
    cases hv
  next => exact h

/-- Claim C3 amended: the combination is_valid = true and severity error is
the normal passing combination (the dataclass default), so the claimed
invariant fails; what holds is that every passing result of every operation
carries severity error except the future-date warning (field date) and the
high-scoring soccer info (field score), and the two aggregate operations only
propagate these. -/
theorem C3_passing_severity :
    (∀ n s, passingSevOk (validate_team_name n s)) ∧
    (∀ l, passingSevOk (validate_league_name l)) ∧
    (∀ d now, passingSevOk (validate_date d now)) ∧
    (∀ sc sp, passingSevOk (validate_score sc sp)) ∧
    (∀ l s, passingSevOk (validate_league_sport_compatibility l s)) ∧
    (∀ t1 t2 l d gs ex, passingSevOk (validate_unique_game t1 t2 l d gs ex)) ∧
    (∀ gd ex eid now rs, validate_game_data gd ex eid now = .ok rs →
      ∀ r ∈ rs, passingSevOk r) ∧
    (∀ gs now, ∀ r ∈ (validate_batch_games gs now).1, passingSevOk r) := by
  refine ⟨fun n s _ => Or.inl (team_name_sev n s),
    fun l _ => Or.inl (league_name_sev l),
    date_passing, score_passing, compat_passing,
    fun t1 t2 l d gs ex _ => Or.inl (unique_sev t1 t2 l d gs ex),
    game_data_ok_passing, ?_⟩
  intro gs now r hr
  rw [batch_spec] at hr
  rcases List.mem_append.mp hr with h | h
  · unfold indivRenamedResults at h
    rcases List.mem_flatMap.mp h with ⟨p, _, hm⟩
    rcases List.mem_map.mp hm with ⟨r0, hr0, rfl⟩
    exact renameResult_passing _ _ (gameResultsOf_passing _ _ r0 hr0)
  · rcases List.mem_map.mp h with ⟨p, _, rfl⟩
    intro hv
    cases hv

/-- Witness for C3: the info-band soccer score is a passing result whose
severity is the info case of the discipline. -/
theorem C3_passing_severity_witness :
    (validate_score (str "11-0") (str "Soccer")).severity = str "error" ∨
    ((validate_score (str "11-0") (str "Soccer")).field = some (str "date") ∧
      (validate_score (str "11-0") (str "Soccer")).severity = str "warning") ∨
    ((validate_score (str "11-0") (str "Soccer")).field = some (str "score") ∧
      (validate_score (str "11-0") (str "Soccer")).severity = str "info") :=
  C3_passing_severity.2.2.2.1 (str "11-0") (str "Soccer") (by decide)
